import Mathlib

/-!
Shallow embedding of the Terminal-Tool relay (src/server.js) and host CLI
(src/cli.js). Pure JavaScript functions become Lean functions; the stateful
relay and host message handlers become explicit state-passing step functions.
JavaScript `Map`s are modelled as insertion-ordered association lists, and
JavaScript string regular expressions are translated to explicit character
scanners matching the exact patterns of the source.
-/

/-- ASCII whitespace recognised by JavaScript `String.prototype.trim` and the
regex class used in cli.js (space, tab, newline, carriage return, vertical
tab, form feed). -/
def jsWhitespace (c : Char) : Bool :=
  c = ' ' || c = '\t' || c = '\n' || c = '\r' || c = Char.ofNat 11 || c = Char.ofNat 12

/-- JavaScript `trim` on a character list: drop whitespace at both ends. -/
def jsTrim (s : List Char) : List Char :=
  ((s.dropWhile jsWhitespace).reverse.dropWhile jsWhitespace).reverse

/-- Characters matched by the class in cli.js `commandBase`. -/
def isBaseChar (c : Char) : Bool :=
  c.isAlpha || c.isDigit || c = '.' || c = '_' || c = '-'

/-- cli.js `commandBase`: trim, take the leading run of base characters,
lowercase it; empty if the command does not start with a base character. -/
def commandBase (command : String) : String :=
  let t := jsTrim command.data
  String.mk ((t.takeWhile isBaseChar).map Char.toLower)

/-- Whether the list starts with two dots, the tail of cli.js regex
(^|NBSP)cd one-or-more-whitespace dot dot. -/
def startsDotDot : List Char → Bool
  | '.' :: '.' :: _ => true
  | _ => false

/-- Match at the current position: literal "cd", at least one whitespace
character, then "..". -/
def matchCdDotDot : List Char → Bool
  | 'c' :: 'd' :: c3 :: rest =>
      jsWhitespace c3 && startsDotDot (rest.dropWhile jsWhitespace)
  | _ => false

/-- Scan the list testing the pattern p at every position that is either the
start of the string or preceded by a whitespace character: this is the
(caret-or-whitespace) anchor of the cli.js strict-cwd regexes. -/
def scanAnchored (p : List Char → Bool) : Bool → List Char → Bool
  | _, [] => false
  | anchor, c :: rest => (anchor && p (c :: rest)) || scanAnchored p (jsWhitespace c) rest

/-- cli.js regex test for directory traversal: "cd" followed by whitespace
and "..", anchored at the start or after whitespace. -/
def testCdTraversal (s : List Char) : Bool :=
  scanAnchored matchCdDotDot true s

/-- Case-insensitively strip a lowercase word from the head of the list,
returning the remainder on success. -/
def stripCI : List Char → List Char → Option (List Char)
  | [], s => some s
  | _, [] => none
  | w :: ws, c :: cs => if c.toLower = w then stripCI ws cs else none

/-- The alternation at the end of the strict-cwd absolute-path regex:
either a slash, or an ASCII drive letter followed by colon backslash. -/
def absStart : List Char → Bool
  | '/' :: _ => true
  | c :: ':' :: '\\' :: _ => c.isAlpha
  | _ => false

/-- After one of the read/navigate command words: one or more whitespace
characters, then an absolute-path start. -/
def afterNavWord : List Char → Bool
  | c :: rest => jsWhitespace c && absStart (rest.dropWhile jsWhitespace)
  | [] => false

/-- The read/navigate command words of the strict-cwd absolute-path regex. -/
def navWords : List (List Char) :=
  [['c', 'd'], ['c', 'a', 't'], ['l', 'e', 's', 's'], ['m', 'o', 'r', 'e'],
   ['t', 'y', 'p', 'e']]

/-- Match at the current position: one of the navigate words
(case-insensitive), one or more whitespace characters, then an absolute
path start. -/
def matchNavAbs (s : List Char) : Bool :=
  navWords.any fun w =>
    match stripCI w s with
    | some rest => afterNavWord rest
    | none => false

/-- cli.js regex test for absolute-path access by a read/navigate command,
anchored at the start or after whitespace, case-insensitive. -/
def testAbsPath (s : List Char) : Bool :=
  scanAnchored matchNavAbs true s

/-- cli.js DANGEROUS_PATTERN: semicolon, double ampersand, double pipe,
backquote, dollar-paren, or an embedded line break. -/
def testDangerous : List Char → Bool
  | [] => false
  | '&' :: '&' :: _ => true
  | '|' :: '|' :: _ => true
  | '$' :: '(' :: _ => true
  | c :: rest =>
      c = ';' || c = '\n' || c = '\r' || c = Char.ofNat 96 || testDangerous rest

/-- Host command policy, cli.js `buildHostPolicy`: working directory,
strict-cwd flag, allow-list of lowercase command-base names (the JS Set is
modelled as a list; empty means unrestricted), and the warn flag. -/
structure HostPolicy where
  cwd : String
  strictCwd : Bool
  whitelist : List String
  warnDangerous : Bool

/-- Result of cli.js `evaluateCommand`: the source returns either
ok:false with a reason, ok:true with a warning, or plain ok:true. -/
inductive EvalResult where
  | reject (reason : String)
  | acceptWithWarning (warning : String)
  | accept
deriving DecidableEq

/-- cli.js `evaluateCommand`: the policy rules applied in source order. -/
def evaluateCommand (command : String) (policy : HostPolicy) : EvalResult :=
  let trimmed := jsTrim command.data
  if trimmed.isEmpty then .reject "Empty command"
  else if trimmed.contains (Char.ofNat 0) then .reject "Command contains null bytes"
  else if policy.strictCwd && testCdTraversal trimmed then
    .reject "strict-cwd blocks directory traversal with \x27cd ..\x27"
  else if policy.strictCwd && testAbsPath trimmed then
    .reject "strict-cwd blocks absolute-path access attempts"
  else
    let base := commandBase (String.mk trimmed)
    if 0 < policy.whitelist.length && !(policy.whitelist.contains base) then
      .reject ("Command \x27" ++ (if base = "" then "<unknown>" else base) ++
        "\x27 is not in whitelist")
    else if policy.warnDangerous && testDangerous trimmed then
      .acceptWithWarning "Command contains chaining/substitution operators. Review carefully."
    else .accept

/-- Whether the second list starts with the first (pattern) list. -/
def listLeads : List Char → List Char → Bool
  | [], _ => true
  | _ :: _, [] => false
  | p :: ps, c :: cs => p = c && listLeads ps cs

/-- JavaScript `includes` on strings: the pattern occurs as a contiguous
run somewhere in the list. -/
def listHasSeq (pat : List Char) : List Char → Bool
  | [] => listLeads pat []
  | c :: cs => listLeads pat (c :: cs) || listHasSeq pat cs

/-- JavaScript `endsWith` on strings, over character lists. -/
def listTrails (pat s : List Char) : Bool :=
  listLeads pat.reverse s.reverse

/-- JavaScript `toLowerCase` over a character list (ASCII). -/
def listLower (s : List Char) : List Char :=
  s.map Char.toLower

/-- A shell candidate as produced by cli.js `shellSpec`: the executable
name, the argument builder for one-shot commands, and the argument vector
for an interactive launch. -/
structure ShellSpec where
  shell : String
  buildArgs : String → List String
  interactiveArgs : List String

/-- cli.js `shellSpec`: classify the shell name as Windows-cmd style,
Windows-PowerShell style, or POSIX style and attach the matching argument
builders. The IS_WINDOWS platform constant is an explicit parameter. -/
def shellSpec (isWindows : Bool) (shellName : String) : ShellSpec :=
  let lower := listLower shellName.data
  let windowsStyle := isWindows || listHasSeq "powershell".data lower ||
    lower = "pwsh".data || lower = "cmd".data || listTrails "cmd.exe".data lower
  if windowsStyle then
    if lower = "cmd".data || listTrails "cmd.exe".data lower then
      { shell := shellName
        buildArgs := fun command => ["/d", "/s", "/c", command]
        interactiveArgs := [] }
    else
      { shell := shellName
        buildArgs := fun command => ["-Command", command]
        interactiveArgs := ["-NoLogo"] }
  else
    { shell := shellName
      buildArgs := fun command => ["-lc", command]
      interactiveArgs := ["-l"] }

/-- The regex test cmd optionally-dot-exe at end of string, case-insensitive,
used by cli.js on a Windows shell override. -/
def cmdLikeEnd (s : String) : Bool :=
  listTrails "cmd".data (listLower s.data) || listTrails "cmd.exe".data (listLower s.data)

/-- The ordered candidate names built by cli.js `resolveShellPlan` before
deduplication: the override first (a JS falsy override, the empty string,
means absent), then platform fallbacks. -/
def shellCandidates (isWindows : Bool) (shellOverride : String) : List String :=
  if shellOverride ≠ "" then
    [shellOverride] ++
      (if isWindows && !cmdLikeEnd shellOverride then ["cmd.exe", "cmd"] else []) ++
      (if !isWindows && shellOverride ≠ "bash" then ["bash", "sh"] else [])
  else if isWindows then ["powershell.exe", "pwsh", "cmd.exe", "cmd"]
  else ["bash", "sh"]

/-- JavaScript spread of `new Set(list)`: deduplicate keeping the first
occurrence of each element, in order. -/
def jsUniqueAux (seen : List String) : List String → List String
  | [] => []
  | x :: xs =>
      if seen.contains x then jsUniqueAux seen xs
      else x :: jsUniqueAux (x :: seen) xs

/-- Deduplicated candidate list, cli.js `unique`. -/
def shellUnique (isWindows : Bool) (shellOverride : String) : List String :=
  jsUniqueAux [] (shellCandidates isWindows shellOverride)

/-- The availability filter of cli.js `resolveShellPlan`: a candidate
containing a path separator is kept without probing, a bare name is kept
when the availability probe (`which`/`where`, the explicit `avail`
parameter) succeeds. -/
def shellKeep (avail : String → Bool) (c : String) : Bool :=
  c.data.contains '/' || c.data.contains '\\' || avail c

/-- Candidates surviving the availability filter, cli.js `available`. -/
def shellAvailable (isWindows : Bool) (shellOverride : String)
    (avail : String → Bool) : List String :=
  (shellUnique isWindows shellOverride).filter (shellKeep avail)

/-- cli.js `resolveShellPlan`: filter the deduplicated candidates by
availability, fall back to the unfiltered list when the filter removes
everything, and attach argument builders to each survivor. -/
def resolveShellPlan (isWindows : Bool) (shellOverride : String)
    (avail : String → Bool) : List ShellSpec :=
  (if 0 < (shellAvailable isWindows shellOverride avail).length then
    shellAvailable isWindows shellOverride avail
  else shellUnique isWindows shellOverride).map (shellSpec isWindows)

/-- Outbound messages emitted by the host CLI over its relay websocket
(cli.js `safeSend` payloads in `attachHostShell`). -/
inductive HostOut where
  | stdoutMsg (requestId data : String)
  | stderrMsg (requestId data : String)
  | exitMsg (requestId : String) (code : Int)
  | outputMsg (data : String)
  | systemMsg (message : String)
deriving DecidableEq

/-- Join a list of strings with comma-space, JavaScript Array.join. -/
def joinCommaSep : List String → String
  | [] => ""
  | [x] => x
  | x :: xs => x ++ ", " ++ joinCommaSep xs

/-- cli.js `trySpawn`, with the OS spawn outcome abstracted by `spawnOk`
(true when the executable exists): try each candidate in order, recording
the attempted names; if an attempt fails with ENOENT move on; when all
candidates are exhausted, fail with the diagnostic listing every attempted
shell. Returns the spec that spawned. -/
def trySpawnGo (spawnOk : String → Bool) :
    List ShellSpec → List String → Except String ShellSpec
  | [], attempted =>
      .error ("No usable shell found. Attempted: " ++ joinCommaSep attempted)
  | spec :: rest, attempted =>
      if spawnOk spec.shell then .ok spec
      else trySpawnGo spawnOk rest (attempted ++ [spec.shell])

/-- Entry point of the spawn loop with an empty attempted list. -/
def trySpawn (spawnOk : String → Bool) (plan : List ShellSpec) :
    Except String ShellSpec :=
  trySpawnGo spawnOk plan []

/-- cli.js `executeCommand` up to process start: evaluate the policy and
either emit the policy stderr and exit 126, or (after an optional warning
system message) attempt to spawn, emitting the spawn diagnostic and exit 1
when no candidate spawns. Returns the messages sent synchronously and the
spec of the spawned process, none when nothing was spawned. -/
def executeCommand (spawnOk : String → Bool) (plan : List ShellSpec)
    (policy : HostPolicy) (requestId command : String) :
    List HostOut × Option ShellSpec :=
  match evaluateCommand command policy with
  | .reject reason =>
      ([.stderrMsg requestId ("[policy] " ++ reason ++ "\n"),
        .exitMsg requestId 126], none)
  | .acceptWithWarning w =>
      match trySpawn spawnOk plan with
      | .error e =>
          ([.systemMsg ("[warning] " ++ w),
            .stderrMsg requestId (e ++ "\n"), .exitMsg requestId 1], none)
      | .ok spec => ([.systemMsg ("[warning] " ++ w)], some spec)
  | .accept =>
      match trySpawn spawnOk plan with
      | .error e =>
          ([.stderrMsg requestId (e ++ "\n"), .exitMsg requestId 1], none)
      | .ok spec => ([], some spec)

/-- Effects of the cancel branch of the cli.js host message handler:
either a graceful-then-forced kill of a tracked child process, or raw
bytes written to the interactive PTY session. -/
inductive CancelEffect where
  | killProcess (requestId : String)
  | ptyWrite (data : String)
deriving DecidableEq

/-- The cancel branch of cli.js `ws.on message`: normalise the requestId
(JS String of a falsy field gives the empty string); if it names a tracked
running command, kill it and drop it from the map; otherwise, if an
interactive PTY session is live, forward the interrupt byte 0x03 to it.
The running-command map is an insertion-ordered association list from
requestId to its startedAt timestamp. -/
def handleCancel (running : List (String × Nat)) (ptyLive : Bool)
    (requestIdField : Option String) : List (String × Nat) × List CancelEffect :=
  let requestId := (requestIdField.getD "")
  if requestId ≠ "" then
    match running.lookup requestId with
    | some _ =>
        (running.filter (fun e => e.1 ≠ requestId), [.killProcess requestId])
    | none => (running, if ptyLive then [.ptyWrite "\x03"] else [])
  else (running, if ptyLive then [.ptyWrite "\x03"] else [])

/-- JavaScript `Number(x) || d` on an integer field: an absent field
(Number gives NaN) and zero are falsy and replaced by the default, every
other integer passes through. -/
def jsNumOr (field : Option Int) (d : Int) : Int :=
  match field with
  | none => d
  | some n => if n = 0 then d else n

/-- The resize branch of the cli.js host message handler: the dimensions
handed to the PTY resize call. -/
def resizeDims (colsField rowsField : Option Int) : Int × Int :=
  (jsNumOr colsField 120, jsNumOr rowsField 30)

/-- A relay-side websocket endpoint: an identity and the ws readyState
(1 = OPEN). Only these two aspects of a socket are observed by the
server.js routing code. -/
structure Socket where
  sid : Nat
  readyState : Nat
deriving DecidableEq

/-- A registered host record, server.js `registeredHosts` values: the
credential triple, the single live host socket (null modelled as none),
the clientId-to-socket Map (insertion-ordered association list), and the
creation timestamp. -/
structure HostRecord where
  hostId : String
  username : String
  password : String
  hostSocket : Option Socket
  clientSockets : List (String × Socket)
  createdAt : Nat
deriving DecidableEq

/-- JavaScript Map.get over the association-list model. -/
def mapGet (m : List (String × Socket)) (k : String) : Option Socket :=
  match m with
  | [] => none
  | (k2, v) :: rest => if k2 = k then some v else mapGet rest k

/-- JavaScript Map.delete over the association-list model (keys are
unique, so removing every binding of k equals removing the one entry). -/
def mapDelete (m : List (String × Socket)) (k : String) : List (String × Socket) :=
  m.filter fun e => e.1 ≠ k

/-- JavaScript Map.set over the association-list model: replace in place
when the key exists, append otherwise. -/
def mapSet (m : List (String × Socket)) (k : String) (v : Socket) :
    List (String × Socket) :=
  match m with
  | [] => [(k, v)]
  | (k2, v2) :: rest =>
      if k2 = k then (k, v) :: rest else (k2, v2) :: mapSet rest k v

/-- The server.js `registeredHosts` Map, keyed by hostId. -/
def Registry := String → Option HostRecord

/-- Point update of the registry, JavaScript Map.set. -/
def Registry.set (st : Registry) (k : String) (v : HostRecord) : Registry :=
  fun k2 => if k2 = k then some v else st k2

/-- Body of a POST /api/register-host request; a missing or falsy hostId
field is modelled by none or the empty string (both falsy in JS). -/
structure RegisterRequest where
  hostId : Option String
  username : String
  password : String

/-- HTTP outcome of the register-host endpoint. -/
inductive RegisterResponse where
  | badRequest (error : String)
  | conflict (error : String)
  | ok (hostId : String)
deriving DecidableEq

/-- server.js POST /api/register-host: reject missing credentials with
400; resolve the hostId (falsy gives the fresh randomUUID, the `freshId`
parameter); reject an existing hostId held by a different username with
409; otherwise store the record, preserving the live host socket, the
client map, and the creation timestamp of an existing record (`now` is
Date.now for a first-time registration). -/
def registerHost (st : Registry) (req : RegisterRequest) (freshId : String)
    (now : Nat) : Registry × RegisterResponse :=
  if req.username = "" || req.password = "" then
    (st, .badRequest "username and password are required")
  else
    let resolvedHostId :=
      match req.hostId with
      | some h => if h = "" then freshId else h
      | none => freshId
    match st resolvedHostId with
    | some existing =>
        if existing.username ≠ req.username then
          (st, .conflict "hostId already claimed by another username")
        else
          (Registry.set st resolvedHostId
            { hostId := resolvedHostId
              username := req.username
              password := req.password
              hostSocket := existing.hostSocket
              clientSockets := existing.clientSockets
              createdAt := existing.createdAt }, .ok resolvedHostId)
    | none =>
        (Registry.set st resolvedHostId
          { hostId := resolvedHostId
            username := req.username
            password := req.password
            hostSocket := none
            clientSockets := []
            createdAt := now }, .ok resolvedHostId)

/-- A parsed JSON frame received from the host socket: the type tag, the
optional clientId routing field, and the rest of the payload, which the
relay never inspects, kept opaque as a string. -/
structure RelayMsg where
  type : String
  clientId : Option String
  payload : String
deriving DecidableEq

/-- Payloads the relay sends to a socket: an error reply, a system notice
(optionally tagged with a clientId), or a verbatim forwarded host message. -/
inductive RelayOut where
  | errorMsg (message : String)
  | systemMsg (message : String) (clientId : Option String)
  | forward (msg : RelayMsg)
deriving DecidableEq

/-- server.js `safeSend`: emit the payload only when the socket exists and
its readyState is OPEN. The result is the list of (socket, payload)
deliveries performed. -/
def relaySafeSend (sock : Option Socket) (out : RelayOut) : List (Socket × RelayOut) :=
  match sock with
  | some s => if s.readyState = 1 then [(s, out)] else []
  | none => []

/-- server.js client-role admission (the branch after credential
verification): reject and close with "host is offline" when no live host
socket exists; otherwise register the minted clientId and notify both
sides. Returns the updated record, the deliveries, and whether the new
socket was closed. -/
def clientConnectStep (record : HostRecord) (sock : Socket) (newClientId : String) :
    HostRecord × List (Socket × RelayOut) × Bool :=
  match record.hostSocket with
  | none => (record, relaySafeSend (some sock) (.errorMsg "host is offline"), true)
  | some hs =>
      if hs.readyState ≠ 1 then
        (record, relaySafeSend (some sock) (.errorMsg "host is offline"), true)
      else
        ({ record with clientSockets := mapSet record.clientSockets newClientId sock },
         relaySafeSend (some sock)
            (.systemMsg "connected to host terminal" (some newClientId)) ++
          relaySafeSend (some hs) (.systemMsg "client connected" (some newClientId)),
         false)

/-- server.js host-branch message handling (socket.on message, role=host):
non-whitelisted types draw an error reply to the host; a missing or empty
clientId is silently dropped; a clientId naming no live client prunes the
stale entry and drops the message; otherwise the message is forwarded
verbatim to exactly that client socket. -/
def hostMessageStep (record : HostRecord) (hostSock : Socket) (msg : RelayMsg) :
    HostRecord × List (Socket × RelayOut) :=
  if !(["output", "exit", "system"].contains msg.type) then
    (record, relaySafeSend (some hostSock) (.errorMsg "host sent unsupported message type"))
  else
    let targetClientId := msg.clientId.getD ""
    if targetClientId = "" then (record, [])
    else
      match mapGet record.clientSockets targetClientId with
      | none =>
          ({ record with clientSockets := mapDelete record.clientSockets targetClientId }, [])
      | some target =>
          if target.readyState ≠ 1 then
            ({ record with clientSockets := mapDelete record.clientSockets targetClientId }, [])
          else (record, relaySafeSend (some target) (.forward msg))

/-- The diagnostic produced when every shell candidate fails to spawn. -/
def spawnFailMsg (plan : List ShellSpec) : String :=
  "No usable shell found. Attempted: " ++ joinCommaSep (plan.map ShellSpec.shell)

/-- A registered record whose host socket is live, with two live clients,
used to exercise the routing step on concrete data. -/
def sampleRecord : HostRecord :=
  { hostId := "h1", username := "alice", password := "pw"
    hostSocket := some ⟨0, 1⟩
    clientSockets := [("a", ⟨1, 1⟩), ("b", ⟨2, 1⟩)]
    createdAt := 42 }

/-- A registered record with no live host socket (hostSocket null). -/
def offlineRecord : HostRecord :=
  { hostId := "h1", username := "alice", password := "pw"
    hostSocket := none
    clientSockets := [("c9", ⟨9, 1⟩)]
    createdAt := 42 }

/-- A registry holding one record under "h1", used at concrete inputs. -/
def sampleRegistry : Registry :=
  fun k => if k = "h1" then some sampleRecord else none

/-- A concrete host message tagged for client "a". -/
def sampleMsg : RelayMsg :=
  { type := "output", clientId := some "a", payload := "hi" }

/-- Deduplication of a nonempty list is nonempty: the head always survives
with an empty seen set. -/
theorem jsUniqueAux_nil_cons (x : String) (xs : List String) :
    jsUniqueAux [] (x :: xs) = x :: jsUniqueAux [x] xs := by
  simp [jsUniqueAux]

/-- The candidate list built by resolveShellPlan is never empty. -/
theorem shellCandidates_ne_nil (isWindows : Bool) (shellOverride : String) :
    shellCandidates isWindows shellOverride ≠ [] := by
  unfold shellCandidates
  split
  · simp
  · split <;> simp

/-- C4: with strictCwd enabled and an empty allow-list (any working
directory and any warn flag), evaluateCommand rejects "cd ../../etc" by
the traversal rule, rejects "cat /etc/passwd" by the absolute-path rule,
and accepts "ls". -/
theorem evaluateCommand_strictCwd_cases (cwd : String) (warn : Bool) :
    evaluateCommand "cd ../../etc" ⟨cwd, true, [], warn⟩ =
      .reject "strict-cwd blocks directory traversal with \x27cd ..\x27" ∧
    evaluateCommand "cat /etc/passwd" ⟨cwd, true, [], warn⟩ =
      .reject "strict-cwd blocks absolute-path access attempts" ∧
    evaluateCommand "ls" ⟨cwd, true, [], warn⟩ = .accept := by
  cases warn <;> exact ⟨rfl, rfl, rfl⟩

/-- C5: with allow-list {ls, pwd} (any working directory, strictness and
warn flag), evaluateCommand rejects "rm -rf /" with a reason citing the
base token rm; the leading-token test is case-insensitive: the base of
"RM -rf /" is also rm and draws the same rejection, while "LS" with its
uppercase leading token is accepted against the lowercase allow-list. -/
theorem evaluateCommand_whitelist_cases (cwd : String) (strict warn : Bool) :
    evaluateCommand "rm -rf /" ⟨cwd, strict, ["ls", "pwd"], warn⟩ =
      .reject "Command \x27rm\x27 is not in whitelist" ∧
    commandBase "rm -rf /" = "rm" ∧
    evaluateCommand "RM -rf /" ⟨cwd, strict, ["ls", "pwd"], warn⟩ =
      .reject "Command \x27rm\x27 is not in whitelist" ∧
    evaluateCommand "LS" ⟨cwd, strict, ["ls", "pwd"], warn⟩ = .accept := by
  cases strict <;> cases warn <;> exact ⟨rfl, rfl, rfl, rfl⟩

/-- The deduplicated candidate list is never empty. -/
theorem shellUnique_ne_nil (isWindows : Bool) (ov : String) :
    shellUnique isWindows ov ≠ [] := by
  unfold shellUnique
  obtain ⟨x, xs, hxs⟩ := List.exists_cons_of_ne_nil (shellCandidates_ne_nil isWindows ov)
  rw [hxs, jsUniqueAux_nil_cons]
  simp

/-- C7: the shell resolver is total and never returns an empty plan; a
path-qualified override (containing a path separator) heads the plan
whatever the availability probe answers; and when probing eliminates
every candidate the full deduplicated candidate list is returned. -/
theorem resolveShellPlan_total (isWindows : Bool) (ov : String) (avail : String → Bool) :
    resolveShellPlan isWindows ov avail ≠ [] ∧
    (ov ≠ "" → (ov.data.contains '/' = true ∨ ov.data.contains '\\' = true) →
      (resolveShellPlan isWindows ov avail).head? = some (shellSpec isWindows ov)) ∧
    (shellAvailable isWindows ov avail = [] →
      resolveShellPlan isWindows ov avail =
        (shellUnique isWindows ov).map (shellSpec isWindows)) := by
  refine ⟨?_, ?_, ?_⟩
  · unfold resolveShellPlan
    split
    · rename_i h
      intro hnil
      rw [List.map_eq_nil_iff] at hnil
      rw [hnil] at h
      simp at h
    · intro hnil
      rw [List.map_eq_nil_iff] at hnil
      exact shellUnique_ne_nil isWindows ov hnil
  · intro hov hsep
    have hkeep : shellKeep avail ov = true := by
      rcases hsep with h | h
      · unfold shellKeep; rw [h]; simp
      · unfold shellKeep; rw [h]; simp
    have hcand : shellCandidates isWindows ov =
        ov :: ((if isWindows && !cmdLikeEnd ov then ["cmd.exe", "cmd"] else []) ++
          (if !isWindows && ov ≠ "bash" then ["bash", "sh"] else [])) := by
      unfold shellCandidates
      rw [if_pos hov]
      simp
    have huniq : ∃ rest, shellUnique isWindows ov = ov :: rest := by
      unfold shellUnique
      rw [hcand, jsUniqueAux_nil_cons]
      exact ⟨_, rfl⟩
    obtain ⟨rest, hrest⟩ := huniq
    have havail : ∃ arest, shellAvailable isWindows ov avail = ov :: arest := by
      unfold shellAvailable
      rw [hrest, List.filter_cons, if_pos (by simp [hkeep])]
      exact ⟨_, rfl⟩
    obtain ⟨arest, harest⟩ := havail
    unfold resolveShellPlan
    rw [harest]
    simp
  · intro h
    unfold resolveShellPlan
    rw [h]
    simp

/-- Witness for C7 at concrete inputs: a POSIX host with an unavailable
override keeps a nonempty plan, a path-qualified override heads the plan
even when nothing probes as available, and a fully failed probe falls back
to the unfiltered candidate list. -/
theorem resolveShellPlan_total_witness :
    resolveShellPlan false "zsh" (fun _ => false) ≠ [] ∧
    (resolveShellPlan false "/opt/fish" (fun _ => false)).head? =
      some (shellSpec false "/opt/fish") ∧
    resolveShellPlan false "zsh" (fun _ => false) =
      (shellUnique false "zsh").map (shellSpec false) :=
  ⟨(resolveShellPlan_total false "zsh" (fun _ => false)).1,
   (resolveShellPlan_total false "/opt/fish" (fun _ => false)).2.1 (by decide)
     (Or.inl (by decide)),
   (resolveShellPlan_total false "zsh" (fun _ => false)).2.2 (by decide)⟩

/-- When every candidate fails to spawn, the spawn loop returns the
diagnostic listing the attempted shells after the already-recorded ones. -/
theorem trySpawnGo_all_fail (spawnOk : String → Bool) (plan : List ShellSpec)
    (hfail : ∀ spec ∈ plan, spawnOk spec.shell = false) (att : List String) :
    trySpawnGo spawnOk plan att =
      .error ("No usable shell found. Attempted: " ++
        joinCommaSep (att ++ plan.map ShellSpec.shell)) := by
  induction plan generalizing att with
  | nil => simp [trySpawnGo]
  | cons spec rest ih =>
      have hs : spawnOk spec.shell = false := hfail spec (by simp)
      have hrest : ∀ s ∈ rest, spawnOk s.shell = false :=
        fun s hsm => hfail s (by simp [hsm])
      simp [trySpawnGo, hs, ih hrest]

/-- C6: a policy-rejected command draws the policy stderr line followed by
exit code 126 and spawns nothing; when the policy passes but no shell
candidate spawns, the spawn diagnostic stderr is followed by exit code 1
(preceded by the warning system message in the accept-with-warning case)
and nothing is spawned. -/
theorem executeCommand_failure_codes (spawnOk : String → Bool) (plan : List ShellSpec)
    (policy : HostPolicy) (requestId command : String) :
    (∀ r, evaluateCommand command policy = .reject r →
      executeCommand spawnOk plan policy requestId command =
        ([.stderrMsg requestId ("[policy] " ++ r ++ "\n"),
          .exitMsg requestId 126], none)) ∧
    ((∀ spec ∈ plan, spawnOk spec.shell = false) →
      (evaluateCommand command policy = .accept →
        executeCommand spawnOk plan policy requestId command =
          ([.stderrMsg requestId (spawnFailMsg plan ++ "\n"),
            .exitMsg requestId 1], none)) ∧
      (∀ w, evaluateCommand command policy = .acceptWithWarning w →
        executeCommand spawnOk plan policy requestId command =
          ([.systemMsg ("[warning] " ++ w),
            .stderrMsg requestId (spawnFailMsg plan ++ "\n"),
            .exitMsg requestId 1], none))) := by
  refine ⟨?_, ?_⟩
  · intro r hr
    simp [executeCommand, hr]
  · intro hfail
    have hspawn : trySpawn spawnOk plan =
        .error (spawnFailMsg plan) := by
      unfold trySpawn spawnFailMsg
      rw [trySpawnGo_all_fail spawnOk plan hfail []]
      simp
    constructor
    · intro hacc
      simp [executeCommand, hacc, hspawn]
    · intro w hw
      simp [executeCommand, hw, hspawn]

/-- Witness for C6: a whitelist rejection of "rm" surfaces as exit 126
with no spawn, and a fully failed spawn of the accepted command "ls"
surfaces as the diagnostic plus exit 1 with no spawn. -/
theorem executeCommand_failure_codes_witness :
    executeCommand (fun _ => false) [shellSpec false "bash"]
        ⟨"", false, ["ls"], true⟩ "r1" "rm" =
      ([.stderrMsg "r1" "[policy] Command \x27rm\x27 is not in whitelist\n",
        .exitMsg "r1" 126], none) ∧
    executeCommand (fun _ => false) [shellSpec false "bash"]
        ⟨"", false, ["ls"], true⟩ "r2" "ls" =
      ([.stderrMsg "r2" "No usable shell found. Attempted: bash\n",
        .exitMsg "r2" 1], none) :=
  ⟨(executeCommand_failure_codes (fun _ => false) [shellSpec false "bash"]
      ⟨"", false, ["ls"], true⟩ "r1" "rm").1
      "Command \x27rm\x27 is not in whitelist" (by decide),
   ((executeCommand_failure_codes (fun _ => false) [shellSpec false "bash"]
      ⟨"", false, ["ls"], true⟩ "r2" "ls").2
      (fun _ _ => rfl)).1 (by decide) |>.trans (by rfl)⟩

/-- C1: a valid host message (type output, exit, or system) carrying a
nonempty clientId k is delivered according to the registry entry for k
alone: to the socket registered under k when that socket is live, and to
nobody otherwise. In particular no other client connection ever receives
it. -/
theorem hostMessageStep_routes_only_to_target (record : HostRecord) (hostSock : Socket)
    (msg : RelayMsg) (k : String)
    (hvalid : msg.type = "output" ∨ msg.type = "exit" ∨ msg.type = "system")
    (hcid : msg.clientId = some k) (hk : k ≠ "") :
    (hostMessageStep record hostSock msg).2 =
      match mapGet record.clientSockets k with
      | some s => if s.readyState = 1 then [(s, RelayOut.forward msg)] else []
      | none => [] := by
  have htype : (["output", "exit", "system"].contains msg.type) = true := by
    rcases hvalid with h | h | h <;> simp [h]
  unfold hostMessageStep
  rw [htype, hcid]
  simp only [Option.getD_some, Bool.not_true, Bool.false_eq_true, if_false, if_neg hk]
  cases hmg : mapGet record.clientSockets k with
  | none => simp
  | some target =>
      by_cases hr : target.readyState = 1 <;> simp [hr, relaySafeSend]

/-- Witness for C1: with a live host, client "a" on a live socket 1 and
client "b" on a live socket 2, an output message tagged for "a" is
delivered exactly to socket 1. -/
theorem hostMessageStep_routes_witness :
    (hostMessageStep sampleRecord ⟨0, 1⟩ sampleMsg).2 =
      [(⟨1, 1⟩, RelayOut.forward sampleMsg)] := by
  rw [hostMessageStep_routes_only_to_target sampleRecord ⟨0, 1⟩ sampleMsg "a"
    (Or.inl rfl) rfl (by decide)]
  decide

/-- Setting the same key to the same value twice equals setting it once. -/
theorem Registry.set_set (st : Registry) (k : String) (v : HostRecord) :
    Registry.set (Registry.set st k v) k v = Registry.set st k v :=
  funext fun k2 => by unfold Registry.set; split <;> rfl

/-- Helper: a registration for an existing hostId under the same username
stores the credential update and preserves the socket, client map and
creation timestamp of the existing record. -/
theorem registerHost_same_username_eq (st : Registry) (h u p freshId : String)
    (now : Nat) (ex : HostRecord) (hh : h ≠ "") (hu : u ≠ "") (hp : p ≠ "")
    (hex : st h = some ex) (hsame : ex.username = u) :
    registerHost st ⟨some h, u, p⟩ freshId now =
      (Registry.set st h
        ⟨h, u, p, ex.hostSocket, ex.clientSockets, ex.createdAt⟩, .ok h) := by
  unfold registerHost
  simp [hu, hp, hh, hex, hsame]

/-- Helper: a registration for an existing hostId under a different
username is refused with the 409 conflict and leaves the registry as is. -/
theorem registerHost_conflict_eq (st : Registry) (h u p freshId : String)
    (now : Nat) (ex : HostRecord) (hh : h ≠ "") (hu : u ≠ "") (hp : p ≠ "")
    (hex : st h = some ex) (hdiff : ex.username ≠ u) :
    registerHost st ⟨some h, u, p⟩ freshId now =
      (st, .conflict "hostId already claimed by another username") := by
  unfold registerHost
  simp [hu, hp, hh, hex, hdiff]

/-- C2: registering an existing hostId with a different username draws the
409-class conflict; with the matching username the registration succeeds,
and repeating the same registration leaves the stored record (and the
whole registry) unchanged: the update is idempotent. -/
theorem registerHost_conflict_and_idempotent (st : Registry)
    (h u p freshId freshId2 : String) (now now2 : Nat) (ex : HostRecord)
    (hh : h ≠ "") (hu : u ≠ "") (hp : p ≠ "") (hex : st h = some ex) :
    (ex.username ≠ u →
      registerHost st ⟨some h, u, p⟩ freshId now =
        (st, .conflict "hostId already claimed by another username")) ∧
    (ex.username = u →
      registerHost st ⟨some h, u, p⟩ freshId now =
        (Registry.set st h
          ⟨h, u, p, ex.hostSocket, ex.clientSockets, ex.createdAt⟩, .ok h) ∧
      registerHost
          (Registry.set st h ⟨h, u, p, ex.hostSocket, ex.clientSockets, ex.createdAt⟩)
          ⟨some h, u, p⟩ freshId2 now2 =
        (Registry.set st h
          ⟨h, u, p, ex.hostSocket, ex.clientSockets, ex.createdAt⟩, .ok h)) := by
  constructor
  · intro hdiff
    exact registerHost_conflict_eq st h u p freshId now ex hh hu hp hex hdiff
  · intro hsame
    refine ⟨registerHost_same_username_eq st h u p freshId now ex hh hu hp hex hsame, ?_⟩
    have hex2 : Registry.set st h
        ⟨h, u, p, ex.hostSocket, ex.clientSockets, ex.createdAt⟩ h =
        some ⟨h, u, p, ex.hostSocket, ex.clientSockets, ex.createdAt⟩ := by
      unfold Registry.set
      simp
    have := registerHost_same_username_eq
      (Registry.set st h ⟨h, u, p, ex.hostSocket, ex.clientSockets, ex.createdAt⟩)
      h u p freshId2 now2
      ⟨h, u, p, ex.hostSocket, ex.clientSockets, ex.createdAt⟩ hh hu hp hex2 rfl
    rw [this, Registry.set_set]

/-- Witness for C2: against a registry holding hostId h1 for alice, a
registration by bob is refused with the conflict, and a repeated
credential refresh by alice is idempotent. -/
theorem registerHost_conflict_and_idempotent_witness :
    registerHost sampleRegistry ⟨some "h1", "bob", "x"⟩ "f" 9 =
      (sampleRegistry, .conflict "hostId already claimed by another username") ∧
    registerHost sampleRegistry ⟨some "h1", "alice", "x"⟩ "f" 9 =
      (Registry.set sampleRegistry "h1"
        ⟨"h1", "alice", "x", some ⟨0, 1⟩, [("a", ⟨1, 1⟩), ("b", ⟨2, 1⟩)], 42⟩, .ok "h1") ∧
    registerHost
        (Registry.set sampleRegistry "h1"
          ⟨"h1", "alice", "x", some ⟨0, 1⟩, [("a", ⟨1, 1⟩), ("b", ⟨2, 1⟩)], 42⟩)
        ⟨some "h1", "alice", "x"⟩ "g" 11 =
      (Registry.set sampleRegistry "h1"
        ⟨"h1", "alice", "x", some ⟨0, 1⟩, [("a", ⟨1, 1⟩), ("b", ⟨2, 1⟩)], 42⟩, .ok "h1") :=
  ⟨(registerHost_conflict_and_idempotent sampleRegistry "h1" "bob" "x" "f" "g" 9 11
      sampleRecord (by decide) (by decide) (by decide) (by decide)).1 (by decide),
   ((registerHost_conflict_and_idempotent sampleRegistry "h1" "alice" "x" "f" "g" 9 11
      sampleRecord (by decide) (by decide) (by decide) (by decide)).2 rfl).1,
   ((registerHost_conflict_and_idempotent sampleRegistry "h1" "alice" "x" "f" "g" 9 11
      sampleRecord (by decide) (by decide) (by decide) (by decide)).2 rfl).2⟩

/-- C10: a successful same-username re-registration responds ok, stores a
record that keeps the live host socket, the whole client-connection map
and the creation timestamp of the existing record (only username and
password fields are rewritten), and touches no other registry key. -/
theorem registerHost_frame (st : Registry) (h u p freshId : String) (now : Nat)
    (ex : HostRecord) (hh : h ≠ "") (hu : u ≠ "") (hp : p ≠ "")
    (hex : st h = some ex) (hsame : ex.username = u) :
    (registerHost st ⟨some h, u, p⟩ freshId now).2 = .ok h ∧
    (registerHost st ⟨some h, u, p⟩ freshId now).1 h =
      some ⟨h, u, p, ex.hostSocket, ex.clientSockets, ex.createdAt⟩ ∧
    ∀ k, k ≠ h → (registerHost st ⟨some h, u, p⟩ freshId now).1 k = st k := by
  rw [registerHost_same_username_eq st h u p freshId now ex hh hu hp hex hsame]
  refine ⟨rfl, ?_, ?_⟩
  · unfold Registry.set
    simp
  · intro k hk
    unfold Registry.set
    simp [hk]

/-- Witness for C10: alice refreshes her password on h1; the stored record
keeps the live host socket 0, both registered clients and the original
creation time, and the unrelated key h2 is untouched. -/
theorem registerHost_frame_witness :
    (registerHost sampleRegistry ⟨some "h1", "alice", "x"⟩ "f" 9).1 "h1" =
      some ⟨"h1", "alice", "x", some ⟨0, 1⟩, [("a", ⟨1, 1⟩), ("b", ⟨2, 1⟩)], 42⟩ ∧
    (registerHost sampleRegistry ⟨some "h1", "alice", "x"⟩ "f" 9).1 "h2" =
      sampleRegistry "h2" :=
  ⟨(registerHost_frame sampleRegistry "h1" "alice" "x" "f" 9 sampleRecord
      (by decide) (by decide) (by decide) (by decide) rfl).2.1,
   (registerHost_frame sampleRegistry "h1" "alice" "x" "f" 9 sampleRecord
      (by decide) (by decide) (by decide) (by decide) rfl).2.2 "h2" (by decide)⟩

/-- Counterexample for C3 as stated: the error frame sent to a client
connecting while the host is offline carries the message "host is
offline", not the claimed "host offline". -/
theorem clientConnectStep_message_counterexample :
    (clientConnectStep offlineRecord ⟨5, 1⟩ "c1").2.1 =
      [(⟨5, 1⟩, RelayOut.errorMsg "host is offline")] ∧
    (clientConnectStep offlineRecord ⟨5, 1⟩ "c1").2.1 ≠
      [(⟨5, 1⟩, RelayOut.errorMsg "host offline")] := by decide

/-- C3 (amended): when the record has no live host connection, a client
connection attempt is answered with an error whose message is "host is
offline", the connection is closed, and the record, including its
client-connection map, is returned unchanged. -/
theorem clientConnectStep_host_offline (record : HostRecord) (sock : Socket)
    (cid : String)
    (hoff : ∀ hs, record.hostSocket = some hs → hs.readyState ≠ 1) :
    clientConnectStep record sock cid =
      (record, relaySafeSend (some sock) (.errorMsg "host is offline"), true) := by
  unfold clientConnectStep
  cases hh : record.hostSocket with
  | none => rfl
  | some hs => simp [hoff hs hh]

/-- Witness for the amended C3 at a concrete offline record. -/
theorem clientConnectStep_host_offline_witness :
    clientConnectStep offlineRecord ⟨5, 1⟩ "c1" =
      (offlineRecord, [(⟨5, 1⟩, RelayOut.errorMsg "host is offline")], true) :=
  (clientConnectStep_host_offline offlineRecord ⟨5, 1⟩ "c1"
    (fun hs h => nomatch h)).trans (by decide)

/-- Counterexample for C8 as stated: a resize carrying cols=5 hands 5
columns to the process, below the claimed minimum of 20. -/
theorem resizeDims_no_min_clamp :
    (resizeDims (some 5) (some 30)).1 = 5 ∧
    ¬(20 ≤ (resizeDims (some 5) (some 30)).1) := by decide

/-- C8 (amended): falsy dimensions, zero or a non-numeric absent field,
are replaced by the defaults 120 columns and 30 rows, so cols=0 yields at
least 20 columns and rows=0 at least 5 rows; a nonzero value is passed
through unchanged, without clamping to any minimum. -/
theorem resizeDims_default_substitution (c r : Int) :
    resizeDims (some 0) (some r) = (120, jsNumOr (some r) 30) ∧
    resizeDims none (some r) = (120, jsNumOr (some r) 30) ∧
    (c ≠ 0 → resizeDims (some c) (some r) = (c, jsNumOr (some r) 30)) ∧
    20 ≤ (resizeDims (some 0) (some r)).1 ∧
    5 ≤ (resizeDims (some c) (some 0)).2 := by
  refine ⟨rfl, rfl, ?_, by norm_num [resizeDims, jsNumOr], by norm_num [resizeDims, jsNumOr]⟩
  intro hc
  simp [resizeDims, jsNumOr, hc]

/-- Witness for the amended C8 at concrete dimensions. -/
theorem resizeDims_default_substitution_witness :
    resizeDims (some 0) (some 7) = (120, 7) ∧
    resizeDims (some 9) (some 7) = (9, 7) :=
  ⟨((resizeDims_default_substitution 9 7).1).trans (by decide),
   ((resizeDims_default_substitution 9 7).2.2.1 (by decide)).trans (by decide)⟩

/-- Counterexample for C9 as stated: a cancel whose requestId matches no
running command is not a pure no-op when an interactive session is live;
the interrupt byte 0x03 is written to the PTY process. -/
theorem handleCancel_pty_interrupt_counterexample :
    handleCancel [] true (some "r1") = ([], [CancelEffect.ptyWrite "\x03"]) ∧
    (handleCancel [] true (some "r1")).2 ≠ [] := by decide

/-- C9 (amended): a cancel whose requestId matches no running command
produces no error and no kill, and leaves the running-command map
unchanged; its only effect is forwarding the interrupt byte to the
interactive PTY session when one is live, and nothing at all otherwise. -/
theorem handleCancel_no_match (running : List (String × Nat)) (ptyLive : Bool)
    (ridField : Option String)
    (hnone : running.lookup (ridField.getD "") = none) :
    handleCancel running ptyLive ridField =
      (running, if ptyLive then [CancelEffect.ptyWrite "\x03"] else []) := by
  unfold handleCancel
  by_cases h : ridField.getD "" = ""
  · simp [h]
  · simp [h, hnone]

/-- Witness for the amended C9: with one unrelated running command, a
cancel for the unknown requestId r1 leaves the map unchanged and only
writes the interrupt byte when a PTY session is live. -/
theorem handleCancel_no_match_witness :
    handleCancel [("a", 1)] false (some "r1") = ([("a", 1)], []) ∧
    handleCancel [("a", 1)] true (some "r1") = ([("a", 1)], [CancelEffect.ptyWrite "\x03"]) :=
  ⟨(handleCancel_no_match [("a", 1)] false (some "r1") (by decide)).trans (by decide),
   (handleCancel_no_match [("a", 1)] true (some "r1") (by decide)).trans (by decide)⟩
